import Mathlib

/-!
A shallow embedding of the metrics data model and marshaling layer of the
opentelemetry-collector core (consumer/pdata/metrics.go) together with the
OAuth2 client-credentials transport builder
(config/configoauth2/configoauth2client.go), and theorems checking the
natural-language specification against it.

Conventions of the embedding:
- Go pointer-backed mutation is modelled by value passing: a Go method that
  mutates through `ms.orig` becomes a Lean function returning the updated
  record.
- Go `(T, error)` returns become `Except GoError T`, or an explicit pair
  when the specification speaks about the value returned alongside the
  error.
- Go `nil` interface fields become `Option`.
- Go `int32`-backed enumerations (MetricDataType, AggregationTemporality)
  become `Int` with named constants; no arithmetic is performed on them, so
  wraparound is irrelevant.
-/

/-- Modelled from the spec: Go error values with `fmt.Errorf` context
wrapping (the `%w` verb); only the wrapping structure and the context
string are relevant to the marshaling layer. -/
inductive GoError where
  | msg (s : String)
  | wrapped (context : String) (cause : GoError)
deriving DecidableEq, Repr

/-- Modelled from the spec: the per-shape data-point records are generated
protobuf types not under src/; their field contents are opaque to this
core, so a point carries a timestamp and an opaque payload. -/
structure DataPoint where
  timeUnixNano : Nat
  payload : Nat
deriving DecidableEq, Repr

/-- Modelled from the spec: the generated otlpmetrics.IntGauge record, a
collection of data points. -/
structure otlpmetrics.IntGauge where
  dataPoints : List DataPoint
deriving DecidableEq, Repr

/-- Modelled from the spec: the generated otlpmetrics.DoubleGauge record. -/
structure otlpmetrics.DoubleGauge where
  dataPoints : List DataPoint
deriving DecidableEq, Repr

/-- Modelled from the spec: the generated otlpmetrics.IntSum record; sums
additionally carry an aggregation-temporality discriminant and a
monotonicity flag. -/
structure otlpmetrics.IntSum where
  aggregationTemporality : Int
  isMonotonic : Bool
  dataPoints : List DataPoint
deriving DecidableEq, Repr

/-- Modelled from the spec: the generated otlpmetrics.DoubleSum record. -/
structure otlpmetrics.DoubleSum where
  aggregationTemporality : Int
  isMonotonic : Bool
  dataPoints : List DataPoint
deriving DecidableEq, Repr

/-- Modelled from the spec: the generated otlpmetrics.IntHistogram record;
histograms additionally carry an aggregation-temporality discriminant. -/
structure otlpmetrics.IntHistogram where
  aggregationTemporality : Int
  dataPoints : List DataPoint
deriving DecidableEq, Repr

/-- Modelled from the spec: the generated otlpmetrics.DoubleHistogram
record. -/
structure otlpmetrics.DoubleHistogram where
  aggregationTemporality : Int
  dataPoints : List DataPoint
deriving DecidableEq, Repr

/-- Modelled from the spec: the generated otlpmetrics.DoubleSummary
record. -/
structure otlpmetrics.DoubleSummary where
  dataPoints : List DataPoint
deriving DecidableEq, Repr

/-- Modelled from the spec: the generated `isMetric_Data` one-of interface
of otlpmetrics.Metric: exactly one of the seven wrapper cases. The Go
`Data` interface field being nil is modelled by `Option` at the use site. -/
inductive otlpmetrics.MetricData where
  | intGauge (v : otlpmetrics.IntGauge)
  | doubleGauge (v : otlpmetrics.DoubleGauge)
  | intSum (v : otlpmetrics.IntSum)
  | doubleSum (v : otlpmetrics.DoubleSum)
  | intHistogram (v : otlpmetrics.IntHistogram)
  | doubleHistogram (v : otlpmetrics.DoubleHistogram)
  | doubleSummary (v : otlpmetrics.DoubleSummary)
deriving DecidableEq, Repr

/-- Modelled from the spec: the generated otlpmetrics.Metric record: name,
description, unit and the one-of data field (nil when no variant is set). -/
structure otlpmetrics.Metric where
  name : String
  description : String
  unit : String
  data : Option otlpmetrics.MetricData
deriving DecidableEq, Repr

/-- Modelled from the spec: scope identity of an instrumenting library. -/
structure otlpmetrics.InstrumentationLibrary where
  name : String
  version : String
deriving DecidableEq, Repr

/-- Modelled from the spec: one instrumentation scope and its ordered
metrics. -/
structure otlpmetrics.InstrumentationLibraryMetrics where
  instrumentationLibrary : otlpmetrics.InstrumentationLibrary
  metrics : List otlpmetrics.Metric
deriving DecidableEq, Repr

/-- Modelled from the spec: the resource-attributes record owned by the
tree. -/
structure otlpmetrics.Resource where
  attributes : List (String × String)
deriving DecidableEq, Repr

/-- Modelled from the spec: one resource and its ordered scopes. -/
structure otlpmetrics.ResourceMetrics where
  resource : otlpmetrics.Resource
  instrumentationLibraryMetrics : List otlpmetrics.InstrumentationLibraryMetrics
deriving DecidableEq, Repr

/-- Modelled from the spec: the collector export request envelope, the root
of the record tree. -/
structure ExportMetricsServiceRequest where
  resourceMetrics : List otlpmetrics.ResourceMetrics
deriving DecidableEq, Repr

/-- Metrics is the root handle owning one record tree
(metrics.go, `type Metrics struct`). The Go field is a pointer
`orig *ExportMetricsServiceRequest`; mutation through it is modelled by
value passing, and the nil-pointer zero value by the empty tree. -/
structure Metrics where
  orig : ExportMetricsServiceRequest
deriving DecidableEq, Repr

/-- NewMetrics creates a new Metrics (metrics.go). -/
def NewMetrics : Metrics :=
  { orig := { resourceMetrics := [] } }

/-- Metric is the view wrapper over one otlpmetrics.Metric. In Go it holds
a pointer `orig *otlpmetrics.Metric`; we identify the view with the record
it points at. -/
structure Metric where
  orig : otlpmetrics.Metric
deriving DecidableEq, Repr

/-- MetricDataType specifies the type of data in a Metric
(metrics.go, `type MetricDataType int32`). -/
abbrev MetricDataType : Type := Int

def MetricDataTypeNone : MetricDataType := 0
def MetricDataTypeIntGauge : MetricDataType := 1
def MetricDataTypeDoubleGauge : MetricDataType := 2
def MetricDataTypeIntSum : MetricDataType := 3
def MetricDataTypeDoubleSum : MetricDataType := 4
def MetricDataTypeIntHistogram : MetricDataType := 5
def MetricDataTypeHistogram : MetricDataType := 6
def MetricDataTypeSummary : MetricDataType := 7

/-- String returns the string representation of the MetricDataType
(metrics.go, switch with a fall-through returning the empty string). -/
def MetricDataType.toGoString (mdt : MetricDataType) : String :=
  if mdt = MetricDataTypeNone then "None"
  else if mdt = MetricDataTypeIntGauge then "IntGauge"
  else if mdt = MetricDataTypeDoubleGauge then "DoubleGauge"
  else if mdt = MetricDataTypeIntSum then "IntSum"
  else if mdt = MetricDataTypeDoubleSum then "DoubleSum"
  else if mdt = MetricDataTypeIntHistogram then "IntHistogram"
  else if mdt = MetricDataTypeHistogram then "Histogram"
  else if mdt = MetricDataTypeSummary then "Summary"
  else ""

/-- DataType returns the type of the data for this Metric (metrics.go,
type switch on `ms.orig.Data`; a nil interface matches no case and falls
through to MetricDataTypeNone). -/
def Metric.DataType (ms : Metric) : MetricDataType :=
  match ms.orig.data with
  | some (.intGauge _) => MetricDataTypeIntGauge
  | some (.doubleGauge _) => MetricDataTypeDoubleGauge
  | some (.intSum _) => MetricDataTypeIntSum
  | some (.doubleSum _) => MetricDataTypeDoubleSum
  | some (.intHistogram _) => MetricDataTypeIntHistogram
  | some (.doubleHistogram _) => MetricDataTypeHistogram
  | some (.doubleSummary _) => MetricDataTypeSummary
  | none => MetricDataTypeNone

/-- SetDataType clears any existing data and initializes it with an empty
data of the given type (metrics.go, switch on `ty`; MetricDataTypeNone and
out-of-range values match no case, so the metric is left unchanged). -/
def Metric.SetDataType (ms : Metric) (ty : MetricDataType) : Metric :=
  if ty = MetricDataTypeIntGauge then
    { ms with orig := { ms.orig with data := some (.intGauge ⟨[]⟩) } }
  else if ty = MetricDataTypeDoubleGauge then
    { ms with orig := { ms.orig with data := some (.doubleGauge ⟨[]⟩) } }
  else if ty = MetricDataTypeIntSum then
    { ms with orig := { ms.orig with data := some (.intSum ⟨0, false, []⟩) } }
  else if ty = MetricDataTypeDoubleSum then
    { ms with orig := { ms.orig with data := some (.doubleSum ⟨0, false, []⟩) } }
  else if ty = MetricDataTypeIntHistogram then
    { ms with orig := { ms.orig with data := some (.intHistogram ⟨0, []⟩) } }
  else if ty = MetricDataTypeHistogram then
    { ms with orig := { ms.orig with data := some (.doubleHistogram ⟨0, []⟩) } }
  else if ty = MetricDataTypeSummary then
    { ms with orig := { ms.orig with data := some (.doubleSummary ⟨[]⟩) } }
  else ms

/-- IntGauge returns the data as IntGauge (metrics.go); the Go type
assertion panics on a mismatched or nil Data, modelled by `none`. -/
def Metric.intGaugeData (ms : Metric) : Option otlpmetrics.IntGauge :=
  match ms.orig.data with
  | some (.intGauge v) => some v
  | _ => none

/-- DoubleGauge returns the data as DoubleGauge (metrics.go). -/
def Metric.doubleGaugeData (ms : Metric) : Option otlpmetrics.DoubleGauge :=
  match ms.orig.data with
  | some (.doubleGauge v) => some v
  | _ => none

/-- IntSum returns the data as IntSum (metrics.go). -/
def Metric.intSumData (ms : Metric) : Option otlpmetrics.IntSum :=
  match ms.orig.data with
  | some (.intSum v) => some v
  | _ => none

/-- DoubleSum returns the data as DoubleSum (metrics.go). -/
def Metric.doubleSumData (ms : Metric) : Option otlpmetrics.DoubleSum :=
  match ms.orig.data with
  | some (.doubleSum v) => some v
  | _ => none

/-- IntHistogram returns the data as IntHistogram (metrics.go). -/
def Metric.intHistogramData (ms : Metric) : Option otlpmetrics.IntHistogram :=
  match ms.orig.data with
  | some (.intHistogram v) => some v
  | _ => none

/-- Histogram returns the data as Histogram (metrics.go; the underlying
wire case is Metric_DoubleHistogram). -/
def Metric.histogramData (ms : Metric) : Option otlpmetrics.DoubleHistogram :=
  match ms.orig.data with
  | some (.doubleHistogram v) => some v
  | _ => none

/-- Summary returns the data as Summary (metrics.go; the underlying wire
case is Metric_DoubleSummary). -/
def Metric.summaryData (ms : Metric) : Option otlpmetrics.DoubleSummary :=
  match ms.orig.data with
  | some (.doubleSummary v) => some v
  | _ => none

/-- copyData (metrics.go): type switch on the source Data; each of the
seven cases allocates a matching fresh shape, deep-copies the point
collection into it (CopyTo of the generated wrappers, value-identical in a
pure model) and assigns it to the destination Data; a nil source Data
matches no case and leaves the destination untouched. -/
def copyData (src dest : otlpmetrics.Metric) : otlpmetrics.Metric :=
  match src.data with
  | some (.intGauge v) =>
      { dest with data := some (.intGauge ⟨v.dataPoints⟩) }
  | some (.doubleGauge v) =>
      { dest with data := some (.doubleGauge ⟨v.dataPoints⟩) }
  | some (.intSum v) =>
      { dest with data := some (.intSum ⟨v.aggregationTemporality, v.isMonotonic, v.dataPoints⟩) }
  | some (.doubleSum v) =>
      { dest with data := some (.doubleSum ⟨v.aggregationTemporality, v.isMonotonic, v.dataPoints⟩) }
  | some (.intHistogram v) =>
      { dest with data := some (.intHistogram ⟨v.aggregationTemporality, v.dataPoints⟩) }
  | some (.doubleHistogram v) =>
      { dest with data := some (.doubleHistogram ⟨v.aggregationTemporality, v.dataPoints⟩) }
  | some (.doubleSummary v) =>
      { dest with data := some (.doubleSummary ⟨v.dataPoints⟩) }
  | none => dest

/-- MetricCount calculates the total number of metrics (metrics.go, two
nested index loops accumulating the metric-slice lengths; the loops are
rendered as left folds over the same sequences in the same order). -/
def Metrics.MetricCount (md : Metrics) : Nat :=
  md.orig.resourceMetrics.foldl
    (fun acc rm =>
      rm.instrumentationLibraryMetrics.foldl
        (fun acc2 ilm => acc2 + ilm.metrics.length) acc)
    0

/-- MetricAndDataPointCount calculates the total number of metrics and
data points (metrics.go): the same traversal as MetricCount, with an inner
switch on `m.DataType()` adding the length of the data-point collection of
the matching variant accessor; MetricDataTypeNone matches no case and adds
nothing. -/
def Metrics.MetricAndDataPointCount (md : Metrics) : Nat × Nat :=
  md.orig.resourceMetrics.foldl
    (fun acc rm =>
      rm.instrumentationLibraryMetrics.foldl
        (fun acc2 ilm =>
          (acc2.1 + ilm.metrics.length,
           ilm.metrics.foldl
             (fun dpc morig =>
               let m : Metric := { orig := morig }
               if m.DataType = MetricDataTypeIntGauge then
                 dpc + ((m.intGaugeData.map fun v => v.dataPoints.length).getD 0)
               else if m.DataType = MetricDataTypeDoubleGauge then
                 dpc + ((m.doubleGaugeData.map fun v => v.dataPoints.length).getD 0)
               else if m.DataType = MetricDataTypeIntSum then
                 dpc + ((m.intSumData.map fun v => v.dataPoints.length).getD 0)
               else if m.DataType = MetricDataTypeDoubleSum then
                 dpc + ((m.doubleSumData.map fun v => v.dataPoints.length).getD 0)
               else if m.DataType = MetricDataTypeIntHistogram then
                 dpc + ((m.intHistogramData.map fun v => v.dataPoints.length).getD 0)
               else if m.DataType = MetricDataTypeHistogram then
                 dpc + ((m.histogramData.map fun v => v.dataPoints.length).getD 0)
               else if m.DataType = MetricDataTypeSummary then
                 dpc + ((m.summaryData.map fun v => v.dataPoints.length).getD 0)
               else dpc)
             acc2.2))
        acc)
    (0, 0)

/-- MetricsDecoder (metrics.go): bytes to a protocol-specific model; the
`interface\x7b\x7d` model type is a parameter of the embedding, Go bytes are
`List Nat`. -/
structure MetricsDecoder (Model : Type) where
  DecodeMetrics : List Nat → Except GoError Model

/-- MetricsEncoder (metrics.go): protocol-specific model to bytes. -/
structure MetricsEncoder (Model : Type) where
  EncodeMetrics : Model → Except GoError (List Nat)

/-- FromMetricsTranslator (metrics.go): canonical Metrics to the
protocol-specific model. -/
structure FromMetricsTranslator (Model : Type) where
  FromMetrics : Metrics → Except GoError Model

/-- ToMetricsTranslator (metrics.go): protocol-specific model to canonical
Metrics. -/
structure ToMetricsTranslator (Model : Type) where
  ToMetrics : Model → Except GoError Metrics

/-- metricsMarshaler (metrics.go): the composition of an encoder and a
from-translator built by NewMetricsMarshaler. -/
structure metricsMarshaler (Model : Type) where
  encoder : MetricsEncoder Model
  translator : FromMetricsTranslator Model

/-- Marshal pdata.Metrics into bytes (metrics.go): translate first,
returning `(nil, wrapped err)` on failure; then encode, returning
`(nil, wrapped err)` on failure; the Go pair `([]byte, error)` is the pair
of an optional byte slice and an optional error. -/
def metricsMarshaler.Marshal (t : metricsMarshaler Model) (td : Metrics) :
    Option (List Nat) × Option GoError :=
  match t.translator.FromMetrics td with
  | .error err => (none, some (.wrapped "converting pdata to model failed" err))
  | .ok model =>
    match t.encoder.EncodeMetrics model with
    | .error err => (none, some (.wrapped "marshal failed" err))
    | .ok buf => (some buf, none)

/-- metricsUnmarshaler (metrics.go): the composition of a decoder and a
to-translator built by NewMetricsUnmarshaler. -/
structure metricsUnmarshaler (Model : Type) where
  decoder : MetricsDecoder Model
  translator : ToMetricsTranslator Model

/-- Metrics.zeroValue: the Go zero value `Metrics\x7b\x7d` returned on the
error paths of Unmarshal; its nil tree pointer is modelled by the empty
tree, which no total operation of this embedding distinguishes from it. -/
def Metrics.zeroValue : Metrics :=
  { orig := { resourceMetrics := [] } }

/-- Unmarshal bytes into pdata.Metrics (metrics.go): decode first,
returning the zero Metrics and a wrapped error on failure; then translate,
returning the zero Metrics and a wrapped error on failure. -/
def metricsUnmarshaler.Unmarshal (t : metricsUnmarshaler Model) (buf : List Nat) :
    Metrics × Option GoError :=
  match t.decoder.DecodeMetrics buf with
  | .error err => (Metrics.zeroValue, some (.wrapped "unmarshal failed" err))
  | .ok model =>
    match t.translator.ToMetrics model with
    | .error err => (Metrics.zeroValue, some (.wrapped "converting model to pdata failed" err))
    | .ok td => (td, none)

/-- OAuth2ClientCredentials (configoauth2client.go): configuration for the
two-legged OAuth2 client-credentials flow. -/
structure OAuth2ClientCredentials where
  ClientID : String
  ClientSecret : String
  TokenURL : String
  Scopes : List String
deriving DecidableEq, Repr

/-- OAuthRTError: the three sentinel error values of configoauth2client.go
(errNoClientIDProvided, errNoTokenURLProvided, errNoClientSecretProvided). -/
inductive OAuthRTError where
  | errNoClientIDProvided
  | errNoTokenURLProvided
  | errNoClientSecretProvided
deriving DecidableEq, Repr

/-- clientcredentials.Config as filled in by RoundTripper
(configoauth2client.go, lines 58-63). -/
structure ClientCredentialsConfig where
  ClientID : String
  ClientSecret : String
  TokenURL : String
  Scopes : List String
deriving DecidableEq, Repr

/-- oauth2.Transport as returned by RoundTripper: a token source built from
the config, over the base round tripper (the base type is opaque). -/
structure OAuth2Transport (Base : Type) where
  Source : ClientCredentialsConfig
  Base : Base
deriving Repr

/-- RoundTripper (configoauth2client.go): validates ClientID, then
ClientSecret, then TokenURL against the empty string, returning the
matching sentinel error with a nil transport; with all three set it returns
the oauth2.Transport over the base and no error. -/
def OAuth2ClientCredentials.RoundTripper (c : OAuth2ClientCredentials)
    (base : Base) : Except OAuthRTError (OAuth2Transport Base) :=
  if c.ClientID = "" then .error .errNoClientIDProvided
  else if c.ClientSecret = "" then .error .errNoClientSecretProvided
  else if c.TokenURL = "" then .error .errNoTokenURLProvided
  else .ok { Source := ⟨c.ClientID, c.ClientSecret, c.TokenURL, c.Scopes⟩, Base := base }

/-- Modelled from the spec: characters are encodable via their code point
(used to encode the strings of the record tree). -/
instance : Encodable Char :=
  Encodable.ofLeftInjection Char.toNat (fun n => some (Char.ofNat n))
    (fun c => congrArg some (Char.ofNat_toNat c))

/-- Modelled from the spec: strings are encodable as their character
lists. -/
instance : Encodable String :=
  Encodable.ofEquiv (List Char) ⟨String.data, String.mk, fun _ => rfl, fun _ => rfl⟩

instance : Encodable DataPoint :=
  Encodable.ofEquiv (Nat × Nat)
    ⟨fun d => (d.timeUnixNano, d.payload), fun p => ⟨p.1, p.2⟩, fun _ => rfl, fun _ => rfl⟩

instance : Encodable otlpmetrics.IntGauge :=
  Encodable.ofEquiv (List DataPoint)
    ⟨otlpmetrics.IntGauge.dataPoints, otlpmetrics.IntGauge.mk, fun _ => rfl, fun _ => rfl⟩

instance : Encodable otlpmetrics.DoubleGauge :=
  Encodable.ofEquiv (List DataPoint)
    ⟨otlpmetrics.DoubleGauge.dataPoints, otlpmetrics.DoubleGauge.mk, fun _ => rfl, fun _ => rfl⟩

instance : Encodable otlpmetrics.IntSum :=
  Encodable.ofEquiv (Int × Bool × List DataPoint)
    ⟨fun v => (v.aggregationTemporality, v.isMonotonic, v.dataPoints),
     fun p => ⟨p.1, p.2.1, p.2.2⟩, fun _ => rfl, fun _ => rfl⟩

instance : Encodable otlpmetrics.DoubleSum :=
  Encodable.ofEquiv (Int × Bool × List DataPoint)
    ⟨fun v => (v.aggregationTemporality, v.isMonotonic, v.dataPoints),
     fun p => ⟨p.1, p.2.1, p.2.2⟩, fun _ => rfl, fun _ => rfl⟩

instance : Encodable otlpmetrics.IntHistogram :=
  Encodable.ofEquiv (Int × List DataPoint)
    ⟨fun v => (v.aggregationTemporality, v.dataPoints),
     fun p => ⟨p.1, p.2⟩, fun _ => rfl, fun _ => rfl⟩

instance : Encodable otlpmetrics.DoubleHistogram :=
  Encodable.ofEquiv (Int × List DataPoint)
    ⟨fun v => (v.aggregationTemporality, v.dataPoints),
     fun p => ⟨p.1, p.2⟩, fun _ => rfl, fun _ => rfl⟩

instance : Encodable otlpmetrics.DoubleSummary :=
  Encodable.ofEquiv (List DataPoint)
    ⟨otlpmetrics.DoubleSummary.dataPoints, otlpmetrics.DoubleSummary.mk, fun _ => rfl, fun _ => rfl⟩

instance : Encodable otlpmetrics.MetricData :=
  Encodable.ofEquiv
    (otlpmetrics.IntGauge ⊕ otlpmetrics.DoubleGauge ⊕ otlpmetrics.IntSum ⊕
      otlpmetrics.DoubleSum ⊕ otlpmetrics.IntHistogram ⊕ otlpmetrics.DoubleHistogram ⊕
      otlpmetrics.DoubleSummary)
    ⟨fun d => match d with
      | .intGauge v => .inl v
      | .doubleGauge v => .inr (.inl v)
      | .intSum v => .inr (.inr (.inl v))
      | .doubleSum v => .inr (.inr (.inr (.inl v)))
      | .intHistogram v => .inr (.inr (.inr (.inr (.inl v))))
      | .doubleHistogram v => .inr (.inr (.inr (.inr (.inr (.inl v)))))
      | .doubleSummary v => .inr (.inr (.inr (.inr (.inr (.inr v))))),
     fun s => match s with
      | .inl v => .intGauge v
      | .inr (.inl v) => .doubleGauge v
      | .inr (.inr (.inl v)) => .intSum v
      | .inr (.inr (.inr (.inl v))) => .doubleSum v
      | .inr (.inr (.inr (.inr (.inl v)))) => .intHistogram v
      | .inr (.inr (.inr (.inr (.inr (.inl v))))) => .doubleHistogram v
      | .inr (.inr (.inr (.inr (.inr (.inr v))))) => .doubleSummary v,
     fun d => by cases d <;> rfl,
     fun s => by rcases s with v | v | v | v | v | v | v <;> rfl⟩

instance : Encodable otlpmetrics.Metric :=
  Encodable.ofEquiv (String × String × String × Option otlpmetrics.MetricData)
    ⟨fun m => (m.name, m.description, m.unit, m.data),
     fun p => ⟨p.1, p.2.1, p.2.2.1, p.2.2.2⟩, fun _ => rfl, fun _ => rfl⟩

instance : Encodable otlpmetrics.InstrumentationLibrary :=
  Encodable.ofEquiv (String × String)
    ⟨fun l => (l.name, l.version), fun p => ⟨p.1, p.2⟩, fun _ => rfl, fun _ => rfl⟩

instance : Encodable otlpmetrics.InstrumentationLibraryMetrics :=
  Encodable.ofEquiv (otlpmetrics.InstrumentationLibrary × List otlpmetrics.Metric)
    ⟨fun l => (l.instrumentationLibrary, l.metrics), fun p => ⟨p.1, p.2⟩,
     fun _ => rfl, fun _ => rfl⟩

instance : Encodable otlpmetrics.Resource :=
  Encodable.ofEquiv (List (String × String))
    ⟨otlpmetrics.Resource.attributes, otlpmetrics.Resource.mk, fun _ => rfl, fun _ => rfl⟩

instance : Encodable otlpmetrics.ResourceMetrics :=
  Encodable.ofEquiv (otlpmetrics.Resource × List otlpmetrics.InstrumentationLibraryMetrics)
    ⟨fun r => (r.resource, r.instrumentationLibraryMetrics), fun p => ⟨p.1, p.2⟩,
     fun _ => rfl, fun _ => rfl⟩

instance : Encodable ExportMetricsServiceRequest :=
  Encodable.ofEquiv (List otlpmetrics.ResourceMetrics)
    ⟨ExportMetricsServiceRequest.resourceMetrics, ExportMetricsServiceRequest.mk,
     fun _ => rfl, fun _ => rfl⟩

/-- Modelled from the spec: the generated protobuf codec for the collector
export request (internal/data/protogen, not under src/) is an opaque,
already-specified external contract encoding the tree faithfully; the wire
image is modelled as the code of the tree under an injective encoding, the
byte-level layout itself is not modelled. `req.Marshal()` never fails on an
in-memory tree. -/
def ExportMetricsServiceRequest.protoMarshal (req : ExportMetricsServiceRequest) :
    Except GoError (List Nat) :=
  .ok [Encodable.encode req]

/-- Modelled from the spec: `req.Unmarshal(data)` of the generated protobuf
codec; fails on bytes that are not the image of a tree. -/
def ExportMetricsServiceRequest.protoUnmarshal (data : List Nat) :
    Except GoError ExportMetricsServiceRequest :=
  match data with
  | [n] =>
    match (Encodable.decode n : Option ExportMetricsServiceRequest) with
    | some req => .ok req
    | none => .error (.msg "proto: wrong wire format")
  | _ => .error (.msg "proto: wrong wire format")

/-- MetricsFromOtlpProtoBytes (metrics.go): unmarshal the request from the
bytes, returning the zero Metrics alongside the error on failure. -/
def MetricsFromOtlpProtoBytes (data : List Nat) : Metrics × Option GoError :=
  match ExportMetricsServiceRequest.protoUnmarshal data with
  | .error err => (Metrics.zeroValue, some err)
  | .ok req => ({ orig := req }, none)

/-- ToOtlpProtoBytes (metrics.go): delegate to the protobuf marshal of the
owned tree. -/
def Metrics.ToOtlpProtoBytes (md : Metrics) : Except GoError (List Nat) :=
  md.orig.protoMarshal

/-- Specification-side reading (for comparison with the code): the
data-point collection carried by a metric variant. -/
def otlpmetrics.MetricData.points : otlpmetrics.MetricData → List DataPoint
  | .intGauge v => v.dataPoints
  | .doubleGauge v => v.dataPoints
  | .intSum v => v.dataPoints
  | .doubleSum v => v.dataPoints
  | .intHistogram v => v.dataPoints
  | .doubleHistogram v => v.dataPoints
  | .doubleSummary v => v.dataPoints

/-- Specification-side reading: the discriminant corresponding to a
variant storage. -/
def otlpmetrics.MetricData.discriminant : otlpmetrics.MetricData → MetricDataType
  | .intGauge _ => MetricDataTypeIntGauge
  | .doubleGauge _ => MetricDataTypeDoubleGauge
  | .intSum _ => MetricDataTypeIntSum
  | .doubleSum _ => MetricDataTypeDoubleSum
  | .intHistogram _ => MetricDataTypeIntHistogram
  | .doubleHistogram _ => MetricDataTypeHistogram
  | .doubleSummary _ => MetricDataTypeSummary

/-- Specification-side reading: the number of data points of the active
variant of a metric; a metric with no active variant contributes 0. -/
def Metric.activeDataPointLen (m : Metric) : Nat :=
  match m.orig.data with
  | none => 0
  | some d => d.points.length

/-- Specification-side reading of MetricCount: the sum of the
metric-slice lengths over every resource and every instrumentation scope. -/
def Metrics.specMetricCount (md : Metrics) : Nat :=
  (md.orig.resourceMetrics.map (fun rm =>
    (rm.instrumentationLibraryMetrics.map (fun ilm => ilm.metrics.length)).sum)).sum

/-- Specification-side reading of the data-point sum: over every metric in
the tree, the length of the data-point collection of its active variant. -/
def Metrics.specDataPointCount (md : Metrics) : Nat :=
  (md.orig.resourceMetrics.map (fun rm =>
    (rm.instrumentationLibraryMetrics.map (fun ilm =>
      (ilm.metrics.map (fun morig => Metric.activeDataPointLen ⟨morig⟩)).sum)).sum)).sum

/-- mkMetricsTree R S M builds the tree of the count-correctness scenario:
R resources, each holding S scopes, each holding M metrics (each metric
left with no active variant). -/
def mkMetricsTree (R S M : Nat) : Metrics :=
  ⟨⟨List.replicate R
    ⟨⟨[]⟩, List.replicate S ⟨⟨"", ""⟩, List.replicate M ⟨"", "", "", none⟩⟩⟩⟩⟩

lemma foldl_add_map (f : α → Nat) :
    ∀ (l : List α) (n : Nat), l.foldl (fun a x => a + f x) n = n + (l.map f).sum := by
  intro l
  induction l with
  | nil => intro n; simp
  | cons x xs ih => intro n; simp [List.foldl_cons, ih, Nat.add_assoc]

lemma metricCount_foldl (l : List otlpmetrics.ResourceMetrics) :
    ∀ n : Nat,
      l.foldl (fun acc rm =>
        rm.instrumentationLibraryMetrics.foldl
          (fun acc2 ilm => acc2 + ilm.metrics.length) acc) n
      = n + (l.map (fun rm =>
          (rm.instrumentationLibraryMetrics.map (fun ilm => ilm.metrics.length)).sum)).sum := by
  induction l with
  | nil => intro n; simp
  | cons rm rms ih =>
    intro n
    simp only [List.foldl_cons, List.map_cons, List.sum_cons]
    rw [foldl_add_map (fun ilm => ilm.metrics.length) rm.instrumentationLibraryMetrics n, ih]
    omega

/-- C5: MetricCount returns the sum of the metric-slice lengths over every
resource and every instrumentation scope of the tree, and on a tree built
with R resources, each holding S scopes, each holding M metrics, it
returns R*S*M. -/
theorem metricCount_is_tree_sum :
    (∀ md : Metrics, md.MetricCount = md.specMetricCount) ∧
    (∀ R S M : Nat, (mkMetricsTree R S M).MetricCount = R * S * M) := by
  have h1 : ∀ md : Metrics, md.MetricCount = md.specMetricCount := by
    intro md
    unfold Metrics.MetricCount Metrics.specMetricCount
    rw [metricCount_foldl, Nat.zero_add]
  refine ⟨h1, fun R S M => ?_⟩
  rw [h1]
  unfold Metrics.specMetricCount mkMetricsTree
  simp [List.map_replicate, List.sum_replicate, smul_eq_mul, Nat.mul_assoc]

lemma mdpc_inner_foldl (l : List otlpmetrics.Metric) :
    ∀ n : Nat,
      l.foldl
        (fun dpc morig =>
          let m : Metric := { orig := morig }
          if m.DataType = MetricDataTypeIntGauge then
            dpc + ((m.intGaugeData.map fun v => v.dataPoints.length).getD 0)
          else if m.DataType = MetricDataTypeDoubleGauge then
            dpc + ((m.doubleGaugeData.map fun v => v.dataPoints.length).getD 0)
          else if m.DataType = MetricDataTypeIntSum then
            dpc + ((m.intSumData.map fun v => v.dataPoints.length).getD 0)
          else if m.DataType = MetricDataTypeDoubleSum then
            dpc + ((m.doubleSumData.map fun v => v.dataPoints.length).getD 0)
          else if m.DataType = MetricDataTypeIntHistogram then
            dpc + ((m.intHistogramData.map fun v => v.dataPoints.length).getD 0)
          else if m.DataType = MetricDataTypeHistogram then
            dpc + ((m.histogramData.map fun v => v.dataPoints.length).getD 0)
          else if m.DataType = MetricDataTypeSummary then
            dpc + ((m.summaryData.map fun v => v.dataPoints.length).getD 0)
          else dpc)
        n
      = n + (l.map (fun morig => Metric.activeDataPointLen ⟨morig⟩)).sum := by
  induction l with
  | nil => intro n; simp
  | cons mo tl ih =>
    intro n
    simp only [List.foldl_cons, List.map_cons, List.sum_cons]
    rw [ih]
    rcases mo with ⟨nm, ds, un, dt⟩
    cases dt with
    | none =>
      simp +decide [Metric.DataType, Metric.activeDataPointLen,
        MetricDataTypeNone, MetricDataTypeIntGauge, MetricDataTypeDoubleGauge,
        MetricDataTypeIntSum, MetricDataTypeDoubleSum, MetricDataTypeIntHistogram,
        MetricDataTypeHistogram, MetricDataTypeSummary]
    | some d =>
      cases d <;>
        simp +decide [Metric.DataType, Metric.activeDataPointLen,
          Metric.intGaugeData, Metric.doubleGaugeData, Metric.intSumData,
          Metric.doubleSumData, Metric.intHistogramData, Metric.histogramData,
          Metric.summaryData, otlpmetrics.MetricData.points,
          MetricDataTypeNone, MetricDataTypeIntGauge, MetricDataTypeDoubleGauge,
          MetricDataTypeIntSum, MetricDataTypeDoubleSum, MetricDataTypeIntHistogram,
          MetricDataTypeHistogram, MetricDataTypeSummary] <;> omega

lemma mdpc_mid_foldl (l : List otlpmetrics.InstrumentationLibraryMetrics) :
    ∀ acc : Nat × Nat,
      l.foldl
        (fun acc2 ilm =>
          (acc2.1 + ilm.metrics.length,
           ilm.metrics.foldl
             (fun dpc morig =>
               let m : Metric := { orig := morig }
               if m.DataType = MetricDataTypeIntGauge then
                 dpc + ((m.intGaugeData.map fun v => v.dataPoints.length).getD 0)
               else if m.DataType = MetricDataTypeDoubleGauge then
                 dpc + ((m.doubleGaugeData.map fun v => v.dataPoints.length).getD 0)
               else if m.DataType = MetricDataTypeIntSum then
                 dpc + ((m.intSumData.map fun v => v.dataPoints.length).getD 0)
               else if m.DataType = MetricDataTypeDoubleSum then
                 dpc + ((m.doubleSumData.map fun v => v.dataPoints.length).getD 0)
               else if m.DataType = MetricDataTypeIntHistogram then
                 dpc + ((m.intHistogramData.map fun v => v.dataPoints.length).getD 0)
               else if m.DataType = MetricDataTypeHistogram then
                 dpc + ((m.histogramData.map fun v => v.dataPoints.length).getD 0)
               else if m.DataType = MetricDataTypeSummary then
                 dpc + ((m.summaryData.map fun v => v.dataPoints.length).getD 0)
               else dpc)
             acc2.2))
        acc
      = (acc.1 + (l.map (fun ilm => ilm.metrics.length)).sum,
         acc.2 + (l.map (fun ilm =>
           (ilm.metrics.map (fun morig => Metric.activeDataPointLen ⟨morig⟩)).sum)).sum) := by
  induction l with
  | nil => intro acc; simp
  | cons ilm tl ih =>
    intro acc
    simp only [List.foldl_cons, List.map_cons, List.sum_cons]
    rw [mdpc_inner_foldl, ih]
    simp only [Prod.mk.injEq]
    constructor <;> omega

lemma mdpc_outer_foldl (l : List otlpmetrics.ResourceMetrics) :
    ∀ acc : Nat × Nat,
      l.foldl
        (fun acc rm =>
          rm.instrumentationLibraryMetrics.foldl
            (fun acc2 ilm =>
              (acc2.1 + ilm.metrics.length,
               ilm.metrics.foldl
                 (fun dpc morig =>
                   let m : Metric := { orig := morig }
                   if m.DataType = MetricDataTypeIntGauge then
                     dpc + ((m.intGaugeData.map fun v => v.dataPoints.length).getD 0)
                   else if m.DataType = MetricDataTypeDoubleGauge then
                     dpc + ((m.doubleGaugeData.map fun v => v.dataPoints.length).getD 0)
                   else if m.DataType = MetricDataTypeIntSum then
                     dpc + ((m.intSumData.map fun v => v.dataPoints.length).getD 0)
                   else if m.DataType = MetricDataTypeDoubleSum then
                     dpc + ((m.doubleSumData.map fun v => v.dataPoints.length).getD 0)
                   else if m.DataType = MetricDataTypeIntHistogram then
                     dpc + ((m.intHistogramData.map fun v => v.dataPoints.length).getD 0)
                   else if m.DataType = MetricDataTypeHistogram then
                     dpc + ((m.histogramData.map fun v => v.dataPoints.length).getD 0)
                   else if m.DataType = MetricDataTypeSummary then
                     dpc + ((m.summaryData.map fun v => v.dataPoints.length).getD 0)
                   else dpc)
                 acc2.2))
            acc)
        acc
      = (acc.1 + (l.map (fun rm =>
           (rm.instrumentationLibraryMetrics.map (fun ilm => ilm.metrics.length)).sum)).sum,
         acc.2 + (l.map (fun rm =>
           (rm.instrumentationLibraryMetrics.map (fun ilm =>
             (ilm.metrics.map (fun morig => Metric.activeDataPointLen ⟨morig⟩)).sum)).sum)).sum) := by
  induction l with
  | nil => intro acc; simp
  | cons rm tl ih =>
    intro acc
    simp only [List.foldl_cons, List.map_cons, List.sum_cons]
    rw [mdpc_mid_foldl, ih]
    simp only [Prod.mk.injEq]
    constructor <;> omega

/-- C6: MetricAndDataPointCount returns a metric count equal to
MetricCount and a data-point count equal to the sum, over every metric in
the tree, of the length of the data-point collection of its active variant
as dispatched by DataType; a metric with no active variant (discriminant
None) contributes 0 data points. -/
theorem metricAndDataPointCount_matches_spec :
    ∀ md : Metrics,
      md.MetricAndDataPointCount = (md.MetricCount, md.specDataPointCount) := by
  intro md
  unfold Metrics.MetricAndDataPointCount Metrics.MetricCount Metrics.specDataPointCount
  rw [mdpc_outer_foldl, metricCount_foldl]
  simp

/-- C7: DataType is a pure read: it depends only on the data field (so it
neither mutates the metric nor allocates variant storage), it returns None
exactly when no variant storage is set, it returns the discriminant of the
variant whose storage is non-null, and its result is always one of the
eight defined MetricDataType values. -/
theorem dataType_pure_read :
    ∀ m : Metric,
      (m.DataType = MetricDataTypeNone ↔ m.orig.data = none) ∧
      m.DataType ∈ [MetricDataTypeNone, MetricDataTypeIntGauge, MetricDataTypeDoubleGauge,
        MetricDataTypeIntSum, MetricDataTypeDoubleSum, MetricDataTypeIntHistogram,
        MetricDataTypeHistogram, MetricDataTypeSummary] ∧
      (∀ d, m.orig.data = some d → m.DataType = d.discriminant) ∧
      (∀ m2 : Metric, m2.orig.data = m.orig.data → m2.DataType = m.DataType) := by
  intro m
  rcases m with ⟨⟨nm, ds, un, dt⟩⟩
  refine ⟨?_, ?_, ?_, ?_⟩
  · cases dt with
    | none => simp [Metric.DataType]
    | some d =>
      cases d <;>
        simp +decide [Metric.DataType, MetricDataTypeNone, MetricDataTypeIntGauge,
          MetricDataTypeDoubleGauge, MetricDataTypeIntSum, MetricDataTypeDoubleSum,
          MetricDataTypeIntHistogram, MetricDataTypeHistogram, MetricDataTypeSummary]
  · cases dt with
    | none => simp [Metric.DataType]
    | some d => cases d <;> simp [Metric.DataType]
  · intro d hd
    cases dt with
    | none => cases hd
    | some d2 =>
      cases hd
      cases d <;> rfl
  · intro m2 h
    rcases m2 with ⟨⟨nm2, ds2, un2, dt2⟩⟩
    simp only at h
    subst h
    rfl

theorem dataType_pure_read_witness :
    Metric.DataType ⟨⟨"cpu", "d", "u", some (.intSum ⟨2, true, [⟨1, 5⟩]⟩)⟩⟩
      = MetricDataTypeIntSum ∧
    Metric.DataType ⟨⟨"", "", "", none⟩⟩ = MetricDataTypeNone :=
  ⟨(dataType_pure_read ⟨⟨"cpu", "d", "u", some (.intSum ⟨2, true, [⟨1, 5⟩]⟩)⟩⟩).2.2.1
      (.intSum ⟨2, true, [⟨1, 5⟩]⟩) rfl,
   (dataType_pure_read ⟨⟨"", "", "", none⟩⟩).1.mpr rfl⟩

/-- C10: the MetricDataType string conversion is total: it returns the
eight documented names on the eight defined constants and the empty string
on every other value. -/
theorem metricDataType_string_total :
    MetricDataType.toGoString MetricDataTypeNone = "None" ∧
    MetricDataType.toGoString MetricDataTypeIntGauge = "IntGauge" ∧
    MetricDataType.toGoString MetricDataTypeDoubleGauge = "DoubleGauge" ∧
    MetricDataType.toGoString MetricDataTypeIntSum = "IntSum" ∧
    MetricDataType.toGoString MetricDataTypeDoubleSum = "DoubleSum" ∧
    MetricDataType.toGoString MetricDataTypeIntHistogram = "IntHistogram" ∧
    MetricDataType.toGoString MetricDataTypeHistogram = "Histogram" ∧
    MetricDataType.toGoString MetricDataTypeSummary = "Summary" ∧
    (∀ n : MetricDataType,
      n ∉ [MetricDataTypeNone, MetricDataTypeIntGauge, MetricDataTypeDoubleGauge,
        MetricDataTypeIntSum, MetricDataTypeDoubleSum, MetricDataTypeIntHistogram,
        MetricDataTypeHistogram, MetricDataTypeSummary] →
        MetricDataType.toGoString n = "") := by
  refine ⟨rfl, rfl, rfl, rfl, rfl, rfl, rfl, rfl, ?_⟩
  intro n hn
  simp only [List.mem_cons, List.not_mem_nil, or_false, not_or] at hn
  obtain ⟨h0, h1, h2, h3, h4, h5, h6, h7⟩ := hn
  simp [MetricDataType.toGoString, h0, h1, h2, h3, h4, h5, h6, h7]

theorem metricDataType_string_total_witness :
    MetricDataType.toGoString 42 = "" :=
  metricDataType_string_total.2.2.2.2.2.2.2.2 42 (by decide)

/-- c3cexMetric: a metric already holding IntGauge storage with one data
point, used to exercise SetDataType with the None discriminant. -/
def c3cexMetric : Metric :=
  ⟨⟨"m", "", "", some (.intGauge ⟨[⟨0, 3⟩]⟩)⟩⟩

/-- C3 counterexample: SetDataType has no case for MetricDataTypeNone, so
on a metric holding IntGauge data, SetDataType(None) neither switches the
discriminant to None nor discards the previous storage: the claim fails at
the discriminant None, one of its eight claimed discriminants. -/
theorem setDataType_none_counterexample :
    (c3cexMetric.SetDataType MetricDataTypeNone).DataType = MetricDataTypeIntGauge ∧
    MetricDataTypeIntGauge ≠ MetricDataTypeNone ∧
    (c3cexMetric.SetDataType MetricDataTypeNone).orig.data = c3cexMetric.orig.data ∧
    (c3cexMetric.SetDataType MetricDataTypeNone).orig.data ≠ none := by
  refine ⟨rfl, by decide, rfl, by decide⟩

/-- C3 amended: for every metric and each of the seven non-None defined
discriminants, SetDataType yields that discriminant with freshly allocated
empty storage, discarding the previous variant storage unconditionally
(the result is independent of the prior state and holds no data points);
for the None discriminant (and any undefined value) SetDataType leaves the
metric unchanged. -/
theorem setDataType_destructive_reset :
    (∀ (m m2 : Metric) (ty : MetricDataType),
      ty ∈ [MetricDataTypeIntGauge, MetricDataTypeDoubleGauge, MetricDataTypeIntSum,
        MetricDataTypeDoubleSum, MetricDataTypeIntHistogram, MetricDataTypeHistogram,
        MetricDataTypeSummary] →
        (m.SetDataType ty).DataType = ty ∧
        (m.SetDataType ty).orig.data = (m2.SetDataType ty).orig.data ∧
        Metric.activeDataPointLen (m.SetDataType ty) = 0 ∧
        (m.SetDataType ty).orig.data ≠ none) ∧
    (∀ m : Metric, m.SetDataType MetricDataTypeNone = m) := by
  constructor
  · intro m m2 ty hty
    fin_cases hty <;>
      simp +decide [Metric.SetDataType, Metric.DataType, Metric.activeDataPointLen,
        otlpmetrics.MetricData.points, MetricDataTypeNone, MetricDataTypeIntGauge,
        MetricDataTypeDoubleGauge, MetricDataTypeIntSum, MetricDataTypeDoubleSum,
        MetricDataTypeIntHistogram, MetricDataTypeHistogram, MetricDataTypeSummary]
  · intro m
    simp +decide [Metric.SetDataType, MetricDataTypeNone, MetricDataTypeIntGauge,
      MetricDataTypeDoubleGauge, MetricDataTypeIntSum, MetricDataTypeDoubleSum,
      MetricDataTypeIntHistogram, MetricDataTypeHistogram, MetricDataTypeSummary]

theorem setDataType_destructive_reset_witness :
    (Metric.SetDataType c3cexMetric MetricDataTypeIntSum).DataType = MetricDataTypeIntSum ∧
    (Metric.SetDataType c3cexMetric MetricDataTypeIntSum).orig.data
      = (Metric.SetDataType ⟨⟨"x", "y", "z", none⟩⟩ MetricDataTypeIntSum).orig.data ∧
    Metric.activeDataPointLen (Metric.SetDataType c3cexMetric MetricDataTypeIntSum) = 0 ∧
    (Metric.SetDataType c3cexMetric MetricDataTypeIntSum).orig.data ≠ none :=
  setDataType_destructive_reset.1 c3cexMetric ⟨⟨"x", "y", "z", none⟩⟩
    MetricDataTypeIntSum (by decide)

/-- C8: copyData with a source whose Data is nil (active variant None)
leaves the destination untouched, keeping whatever variant storage it
already held; with a non-None source it overwrites the destination Data
with a copy equal in value to the source variant (allocation freshness is
not observable under value semantics). -/
theorem copyData_none_frame :
    ∀ src dest : otlpmetrics.Metric,
      (src.data = none → copyData src dest = dest) ∧
      (src.data ≠ none → (copyData src dest).data = src.data) := by
  intro src dest
  rcases src with ⟨nm, ds, un, dt⟩
  cases dt with
  | none => exact ⟨fun _ => rfl, fun h => absurd rfl h⟩
  | some d =>
    refine ⟨fun h => (nomatch h), fun _ => ?_⟩
    cases d <;> rfl

theorem copyData_none_frame_witness :
    copyData ⟨"s", "", "", none⟩ ⟨"d", "", "", some (.doubleGauge ⟨[⟨7, 9⟩]⟩)⟩
      = ⟨"d", "", "", some (.doubleGauge ⟨[⟨7, 9⟩]⟩)⟩ ∧
    (copyData ⟨"s", "", "", some (.intSum ⟨1, true, [⟨2, 4⟩]⟩)⟩
        ⟨"d", "", "", some (.doubleGauge ⟨[⟨7, 9⟩]⟩)⟩).data
      = some (.intSum ⟨1, true, [⟨2, 4⟩]⟩) :=
  ⟨(copyData_none_frame ⟨"s", "", "", none⟩
      ⟨"d", "", "", some (.doubleGauge ⟨[⟨7, 9⟩]⟩)⟩).1 rfl,
   (copyData_none_frame ⟨"s", "", "", some (.intSum ⟨1, true, [⟨2, 4⟩]⟩)⟩
      ⟨"d", "", "", some (.doubleGauge ⟨[⟨7, 9⟩]⟩)⟩).2 (by decide)⟩

/-- c1FailTranslator: a from-translator that always fails with "boom". -/
def c1FailTranslator : FromMetricsTranslator Unit :=
  ⟨fun _ => .error (.msg "boom")⟩

/-- c1OkTranslator: a from-translator that always succeeds. -/
def c1OkTranslator : FromMetricsTranslator Unit :=
  ⟨fun _ => .ok ()⟩

/-- c1OkEncoder: an encoder that always succeeds with empty bytes. -/
def c1OkEncoder : MetricsEncoder Unit :=
  ⟨fun _ => .ok []⟩

/-- c1FailEncoder: an encoder that always fails with "enc". -/
def c1FailEncoder : MetricsEncoder Unit :=
  ⟨fun _ => .error (.msg "enc")⟩

/-- C1 counterexample: on a translation failure, Marshal wraps the error
with the context "converting pdata to model failed", which is not the
context "converting to model failed" stated by the claim. -/
theorem marshal_wrap_context_counterexample :
    (metricsMarshaler.Marshal ⟨c1OkEncoder, c1FailTranslator⟩ NewMetrics).2
      = some (.wrapped "converting pdata to model failed" (.msg "boom")) ∧
    GoError.wrapped "converting pdata to model failed" (.msg "boom")
      ≠ GoError.wrapped "converting to model failed" (.msg "boom") ∧
    (metricsMarshaler.Marshal ⟨c1OkEncoder, c1FailTranslator⟩ NewMetrics).1 = none := by
  refine ⟨rfl, by decide, rfl⟩

/-- C1 amended: if the translator fails, Marshal returns nil bytes with the
error wrapped under the context "converting pdata to model failed" (not
"converting to model failed" as claimed), and the result does not depend on
the encoder, which is never invoked; if translation succeeds and encoding
fails, Marshal returns nil bytes with the error wrapped under "marshal
failed". -/
theorem marshal_fail_fast :
    ∀ (Model : Type) (enc enc2 : MetricsEncoder Model) (tr : FromMetricsTranslator Model)
      (md : Metrics) (e : GoError),
      (tr.FromMetrics md = .error e →
        metricsMarshaler.Marshal ⟨enc, tr⟩ md
          = (none, some (.wrapped "converting pdata to model failed" e)) ∧
        metricsMarshaler.Marshal ⟨enc, tr⟩ md = metricsMarshaler.Marshal ⟨enc2, tr⟩ md) ∧
      (∀ model, tr.FromMetrics md = .ok model → enc.EncodeMetrics model = .error e →
        metricsMarshaler.Marshal ⟨enc, tr⟩ md = (none, some (.wrapped "marshal failed" e))) := by
  intro Model enc enc2 tr md e
  constructor
  · intro h
    constructor <;> simp [metricsMarshaler.Marshal, h]
  · intro model h1 h2
    simp [metricsMarshaler.Marshal, h1, h2]

theorem marshal_fail_fast_witness :
    (metricsMarshaler.Marshal ⟨c1OkEncoder, c1FailTranslator⟩ NewMetrics
        = (none, some (.wrapped "converting pdata to model failed" (.msg "boom"))) ∧
      metricsMarshaler.Marshal ⟨c1OkEncoder, c1FailTranslator⟩ NewMetrics
        = metricsMarshaler.Marshal ⟨c1FailEncoder, c1FailTranslator⟩ NewMetrics) ∧
    metricsMarshaler.Marshal ⟨c1FailEncoder, c1OkTranslator⟩ NewMetrics
      = (none, some (.wrapped "marshal failed" (.msg "enc"))) :=
  ⟨(marshal_fail_fast Unit c1OkEncoder c1FailEncoder c1FailTranslator NewMetrics
      (.msg "boom")).1 rfl,
   (marshal_fail_fast Unit c1FailEncoder c1FailEncoder c1OkTranslator NewMetrics
      (.msg "enc")).2 () rfl rfl⟩

/-- c2FailDecoder: a decoder that always fails with "bad". -/
def c2FailDecoder : MetricsDecoder Unit :=
  ⟨fun _ => .error (.msg "bad")⟩

/-- c2OkDecoder: a decoder that always succeeds. -/
def c2OkDecoder : MetricsDecoder Unit :=
  ⟨fun _ => .ok ()⟩

/-- c2FailTranslator: a to-translator that always fails with "conv". -/
def c2FailTranslator : ToMetricsTranslator Unit :=
  ⟨fun _ => .error (.msg "conv")⟩

/-- c2OkTranslator: a to-translator that always succeeds. -/
def c2OkTranslator : ToMetricsTranslator Unit :=
  ⟨fun _ => .ok NewMetrics⟩

/-- C2 counterexample: on a translation failure, Unmarshal wraps the error
with the context "converting model to pdata failed", which is not the
context "converting to canonical failed" stated by the claim. -/
theorem unmarshal_wrap_context_counterexample :
    (metricsUnmarshaler.Unmarshal ⟨c2OkDecoder, c2FailTranslator⟩ []).2
      = some (.wrapped "converting model to pdata failed" (.msg "conv")) ∧
    GoError.wrapped "converting model to pdata failed" (.msg "conv")
      ≠ GoError.wrapped "converting to canonical failed" (.msg "conv") ∧
    (metricsUnmarshaler.Unmarshal ⟨c2OkDecoder, c2FailTranslator⟩ []).1
      = Metrics.zeroValue := by
  refine ⟨rfl, by decide, rfl⟩

/-- C2 amended: if the decoder fails, Unmarshal returns the zero Metrics
with the error wrapped under "unmarshal failed", and the result does not
depend on the translator, which is never invoked; if decoding succeeds and
the translator fails, Unmarshal returns the zero Metrics with the error
wrapped under "converting model to pdata failed" (not "converting to
canonical failed" as claimed); on any error the returned canonical value is
the zero Metrics. -/
theorem unmarshal_fail_fast :
    ∀ (Model : Type) (dec : MetricsDecoder Model) (tr tr2 : ToMetricsTranslator Model)
      (buf : List Nat) (e : GoError),
      (dec.DecodeMetrics buf = .error e →
        metricsUnmarshaler.Unmarshal ⟨dec, tr⟩ buf
          = (Metrics.zeroValue, some (.wrapped "unmarshal failed" e)) ∧
        metricsUnmarshaler.Unmarshal ⟨dec, tr⟩ buf
          = metricsUnmarshaler.Unmarshal ⟨dec, tr2⟩ buf) ∧
      (∀ model, dec.DecodeMetrics buf = .ok model → tr.ToMetrics model = .error e →
        metricsUnmarshaler.Unmarshal ⟨dec, tr⟩ buf
          = (Metrics.zeroValue, some (.wrapped "converting model to pdata failed" e))) := by
  intro Model dec tr tr2 buf e
  constructor
  · intro h
    constructor <;> simp [metricsUnmarshaler.Unmarshal, h]
  · intro model h1 h2
    simp [metricsUnmarshaler.Unmarshal, h1, h2]

theorem unmarshal_fail_fast_witness :
    (metricsUnmarshaler.Unmarshal ⟨c2FailDecoder, c2FailTranslator⟩ []
        = (Metrics.zeroValue, some (.wrapped "unmarshal failed" (.msg "bad"))) ∧
      metricsUnmarshaler.Unmarshal ⟨c2FailDecoder, c2FailTranslator⟩ []
        = metricsUnmarshaler.Unmarshal ⟨c2FailDecoder, c2OkTranslator⟩ []) ∧
    metricsUnmarshaler.Unmarshal ⟨c2OkDecoder, c2FailTranslator⟩ []
      = (Metrics.zeroValue, some (.wrapped "converting model to pdata failed" (.msg "conv"))) :=
  ⟨(unmarshal_fail_fast Unit c2FailDecoder c2FailTranslator c2OkTranslator []
      (.msg "bad")).1 rfl,
   (unmarshal_fail_fast Unit c2OkDecoder c2FailTranslator c2FailTranslator []
      (.msg "conv")).2 () rfl rfl⟩

/-- C9: RoundTripper fails exactly when one of ClientID, ClientSecret,
TokenURL is empty, the returned error names the first empty field in the
checking order ClientID, ClientSecret, TokenURL (with no transport
alongside), and with all three set it returns the transport over the base
with no error. -/
theorem roundTripper_validation :
    ∀ (Base : Type) (base : Base) (c : OAuth2ClientCredentials),
      ((∃ e, c.RoundTripper base = .error e) ↔
        (c.ClientID = "" ∨ c.ClientSecret = "" ∨ c.TokenURL = "")) ∧
      (c.ClientID = "" → c.RoundTripper base = .error .errNoClientIDProvided) ∧
      (c.ClientID ≠ "" → c.ClientSecret = "" →
        c.RoundTripper base = .error .errNoClientSecretProvided) ∧
      (c.ClientID ≠ "" → c.ClientSecret ≠ "" → c.TokenURL = "" →
        c.RoundTripper base = .error .errNoTokenURLProvided) ∧
      (c.ClientID ≠ "" → c.ClientSecret ≠ "" → c.TokenURL ≠ "" →
        c.RoundTripper base
          = .ok ⟨⟨c.ClientID, c.ClientSecret, c.TokenURL, c.Scopes⟩, base⟩) := by
  intro Base base c
  by_cases h1 : c.ClientID = "" <;> by_cases h2 : c.ClientSecret = "" <;>
    by_cases h3 : c.TokenURL = "" <;>
      simp [OAuth2ClientCredentials.RoundTripper, h1, h2, h3]

theorem roundTripper_validation_witness :
    OAuth2ClientCredentials.RoundTripper ⟨"id", "", "https://t", []⟩ ()
      = .error .errNoClientSecretProvided ∧
    OAuth2ClientCredentials.RoundTripper ⟨"id", "sec", "https://t", ["a"]⟩ ()
      = .ok ⟨⟨"id", "sec", "https://t", ["a"]⟩, ()⟩ :=
  ⟨(roundTripper_validation Unit () ⟨"id", "", "https://t", []⟩).2.2.1
      (by decide) rfl,
   (roundTripper_validation Unit () ⟨"id", "sec", "https://t", ["a"]⟩).2.2.2.2
      (by decide) (by decide) (by decide)⟩

/-- C4: deserializing the bytes produced by serialization reconstructs the
Metrics value: whenever ToOtlpProtoBytes succeeds with a byte image,
MetricsFromOtlpProtoBytes on that image succeeds and returns a Metrics
value structurally equal to the original. -/
theorem otlpProtoBytes_round_trip :
    ∀ (md : Metrics) (buf : List Nat),
      md.ToOtlpProtoBytes = .ok buf →
        MetricsFromOtlpProtoBytes buf = (md, none) := by
  intro md buf h
  have hb : buf = [Encodable.encode md.orig] := by
    unfold Metrics.ToOtlpProtoBytes ExportMetricsServiceRequest.protoMarshal at h
    exact (Except.ok.inj h).symm
  subst hb
  unfold MetricsFromOtlpProtoBytes ExportMetricsServiceRequest.protoUnmarshal
  simp [Encodable.encodek]

theorem otlpProtoBytes_round_trip_witness :
    MetricsFromOtlpProtoBytes
        [Encodable.encode (ExportMetricsServiceRequest.mk [])]
      = (NewMetrics, none) :=
  otlpProtoBytes_round_trip NewMetrics
    [Encodable.encode (ExportMetricsServiceRequest.mk [])] rfl
